import Mathlib

/-!
Verification development for the ProductHunt daily-intel script
(`producthunt_intel.py`).  The script's core pieces are embedded
shallowly:

* the retry/backoff controller `call_claude_with_retry`, modelled as a
  fuel-indexed loop over an abstract operation `op : Nat → CallOutcome α`
  (the outcome of the i-th API call); the model additionally records the
  observable effects — the list of sleep durations and the number of
  calls performed — inside the returned `RetryResult`;
* the tool-use conversation loop `run_analysis`, modelled over a script
  of provider responses consumed one per exchange;
* the regex-based extraction layer `clean_spec_content` /
  `extract_product_info`, with each concrete Python regular expression
  embedded as a dedicated executable matcher that follows the
  backtracking semantics of `re` on that pattern;
* the orchestrator `main` / `send_slack_notification`, modelled over
  abstract outcomes of the analysis, upload and webhook-post steps.
-/

namespace PHIntel

/-! ### Retry configuration (`MAX_RETRIES`, `INITIAL_RETRY_DELAY`) -/

/-- `MAX_RETRIES = 5` in the script. -/
def MAX_RETRIES : Nat := 5

/-- `INITIAL_RETRY_DELAY = 60` seconds in the script. -/
def INITIAL_RETRY_DELAY : Nat := 60

/-- The backoff delay computed inline in `call_claude_with_retry`:
`delay = INITIAL_RETRY_DELAY * (2 ** attempt)`. -/
def retryDelay (attempt : Nat) : Nat := INITIAL_RETRY_DELAY * 2 ^ attempt

/-- Outcome of one invocation of the wrapped operation
(`client.messages.create`): a successful message, a rate-limit
exception, or any other exception. -/
inductive CallOutcome (α : Type) where
  | ok (m : α)
  | rateLimited
  | otherErr (e : String)
deriving DecidableEq, Repr

/-- Result of `call_claude_with_retry`, instrumented with the list of
sleep durations performed and the number of calls made. -/
inductive RetryResult (α : Type) where
  | success (m : α) (waits : List Nat) (calls : Nat)
  | raisedRateLimit (waits : List Nat) (calls : Nat)
  | raisedError (e : String) (waits : List Nat) (calls : Nat)
  | exhausted (waits : List Nat) (calls : Nat)
deriving DecidableEq, Repr

/-- The `for attempt in range(MAX_RETRIES)` loop of
`call_claude_with_retry`, with `fuel` the number of loop iterations
remaining and `a` the current attempt index.  `exhausted` corresponds to
the `raise Exception("Max retries exceeded")` after the loop. -/
def retryAux {α : Type} (op : Nat → CallOutcome α) : Nat → Nat → List Nat → RetryResult α
  | a, 0, w => .exhausted w a
  | a, fuel + 1, w =>
    match op a with
    | .ok m => .success m w (a + 1)
    | .rateLimited =>
      if a = MAX_RETRIES - 1 then .raisedRateLimit w (a + 1)
      else retryAux op (a + 1) fuel (w ++ [retryDelay a])
    | .otherErr e => .raisedError e w (a + 1)

/-- `call_claude_with_retry`: run the retry loop from attempt 0. -/
def call_claude_with_retry {α : Type} (op : Nat → CallOutcome α) : RetryResult α :=
  retryAux op 0 MAX_RETRIES []

/-- The sequence of backoff delays slept when attempts
`a, a+1, …, a+k-1` are all rate-limited. -/
def delaysFrom : Nat → Nat → List Nat
  | _, 0 => []
  | a, k + 1 => retryDelay a :: delaysFrom (a + 1) k

/-- Concrete operation for witnesses: rate-limited twice, then a
success. -/
def opTwoRL : Nat → CallOutcome Nat :=
  fun i => if i < 2 then .rateLimited else .ok 37

/-- Concrete operation for witnesses: rate-limited on every attempt. -/
def opAllRL : Nat → CallOutcome Nat := fun _ => .rateLimited

/-- Concrete operation for witnesses: a non-rate-limit failure. -/
def opBoom : Nat → CallOutcome Nat := fun _ => .otherErr "boom"

/-! ### Conversation driver (`run_analysis`) -/

/-- One content block of a provider response.  Only `text` blocks carry
a `.text` attribute; `toolUse` blocks carry `.id` and `.input.query`;
`otherBlock` stands for any further server-side block kind (e.g. a
web-search result block), which has neither. -/
inductive Block where
  | text (s : String)
  | toolUse (id : String) (query : String)
  | otherBlock
deriving DecidableEq, Repr

/-- One provider response: a stop reason string and content blocks. -/
structure PHResponse where
  stop_reason : String
  content : List Block
deriving DecidableEq, Repr

/-- An entry of the `tool_results` list built in the loop body:
`{"type": "tool_result", "tool_use_id": block.id, "content": "Search completed"}`. -/
structure ToolResultMsg where
  type : String
  tool_use_id : String
  content : String
deriving DecidableEq, Repr

/-- The content of one transcript message. -/
inductive TurnContent where
  | str (s : String)
  | blocks (bs : List Block)
  | results (rs : List ToolResultMsg)
deriving DecidableEq, Repr

/-- One transcript message (`{"role": ..., "content": ...}`). -/
structure Turn where
  role : String
  content : TurnContent
deriving DecidableEq, Repr

/-- The `.text` attribute of a block, when it has one. -/
def blockText : Block → Option String
  | .text s => some s
  | _ => none

/-- The id of a tool-use block, when it is one. -/
def blockToolId : Block → Option String
  | .toolUse id _ => some id
  | _ => none

/-- `"".join(block.text for block in content if hasattr(block, "text"))`. -/
def joinTexts (bs : List Block) : String :=
  String.join (bs.filterMap blockText)

/-- The `tool_results` list synthesized in the loop body: one
`tool_result` entry per `tool_use` block, keyed by that block's id,
with the fixed content `"Search completed"`. -/
def toolResultsOf (bs : List Block) : List ToolResultMsg :=
  bs.filterMap fun b =>
    match b with
    | .toolUse id _ => some ⟨"tool_result", id, "Search completed"⟩
    | _ => none

/-- The `while response.stop_reason == "tool_use"` loop of
`run_analysis`, driven by the script `resps` of responses the provider
returns, one per exchange.  Returns the final transcript, the final
response and the number of exchanges performed; `none` when the script
is exhausted while the driver still expects another exchange. -/
def driveLoop : List PHResponse → List Turn → Option (List Turn × PHResponse × Nat)
  | [], _ => none
  | r :: rest, msgs =>
    if r.stop_reason = "tool_use" then
      match driveLoop rest
          (msgs ++ [⟨"assistant", .blocks r.content⟩,
                    ⟨"user", .results (toolResultsOf r.content)⟩]) with
      | some (m, fin, n) => some (m, fin, n + 1)
      | none => none
    else
      some (msgs, r, 1)

/-- Result of `run_analysis`, instrumented with the raw (pre-cleaning)
concatenated text and the number of provider exchanges. -/
structure RunResult where
  raw_content : String
  exchanges : Nat
deriving DecidableEq, Repr

/-- `run_analysis` up to the point where `raw_content` is computed:
send the user prompt, loop while the provider requests tools, then
concatenate the text blocks of the final response. -/
def run_analysis_raw (prompt : String) (resps : List PHResponse) : Option RunResult :=
  match driveLoop resps [⟨"user", .str prompt⟩] with
  | some (_, fin, n) => some ⟨joinTexts fin.content, n⟩
  | none => none

/-! ### Orchestrator (`main`, `send_slack_notification`) -/

/-- The error text placed in the failure payload of
`send_slack_notification`: an f-string wrapping `error_message[:500]`
in a code fence. -/
def failureErrorText (error_message : String) : String :=
  "*Error:*\n```" ++ String.mk (error_message.data.take 500) ++ "```"

/-- The observable record of one `send_slack_notification` call: which
payload was built and whether the webhook post succeeded.  The Python
function swallows a failing post (`except Exception: print(...)`), so
the model returns this record unconditionally — there is no failure
path. -/
structure SlackCall where
  success : Bool
  product_name : String
  doc_url : String
  product_url : String
  errorText : String
  posted : Bool
deriving DecidableEq, Repr

/-- `send_slack_notification`: builds a success payload or a failure
payload whose error text is the truncated `error_message`, posts it
(outcome `postOk`), and returns normally in either case. -/
def send_slack_notification (success : Bool)
    (product_name doc_url product_url error_message : String)
    (postOk : Bool) : SlackCall :=
  ⟨success, product_name, doc_url, product_url,
    if success then "" else failureErrorText error_message, postOk⟩

/-- `main`, modelled over the outcomes of its two fallible steps
(`run_analysis`, `upload_to_drive`) and of the webhook post.  The first
component is the process outcome (`.error e` models the re-raised
exception); the second lists the `send_slack_notification` calls made,
in order. -/
def main_model (analysis : Except String (String × String × String))
    (upload : Except String String) (postOk : Bool) :
    Except String Unit × List SlackCall :=
  match analysis with
  | .error e => (.error e, [send_slack_notification false "" "" "" e postOk])
  | .ok (product_name, _, product_url) =>
    match upload with
    | .error e => (.error e, [send_slack_notification false "" "" "" e postOk])
    | .ok doc_url =>
      (.ok (), [send_slack_notification true product_name doc_url product_url "" postOk])

/-! ### Output extraction (`clean_spec_content`, `extract_product_info`)

Each Python regular expression of the script is embedded as a dedicated
executable matcher over `List Char`, following `re`'s leftmost-match
and backtracking semantics on that concrete pattern (`\s+`/`\s*`
greedy, `(.+?)` lazy, `^` at line starts under `re.MULTILINE`). -/

/-- Python's `\s` class (ASCII whitespace). -/
def pyIsSpace (c : Char) : Bool :=
  c == ' ' || c == '\t' || c == '\n' || c == '\r' || c == '\x0b' || c == '\x0c'

/-- `str.strip()`: drop leading and trailing whitespace. -/
def pyStrip (l : List Char) : List Char :=
  ((l.dropWhile pyIsSpace).reverse.dropWhile pyIsSpace).reverse

/-- Case-insensitive literal test: does `l` start with the pattern? -/
def caselessStarts : List Char → List Char → Bool
  | [], _ => true
  | _ :: _, [] => false
  | p :: ps, c :: cs => (p.toLower == c.toLower) && caselessStarts ps cs

/-- Leftmost search without anchors: try `f` at every position, first
success wins (the scan of `re.search` for an unanchored pattern). -/
def searchAny {α : Type} (f : List Char → Option α) : List Char → Option α
  | [] => f []
  | c :: rest =>
    match f (c :: rest) with
    | some r => some r
    | none => searchAny f rest

/-- Leftmost search for a `^`-anchored pattern under `re.MULTILINE`:
try `f` only at line starts (position 0 when `a` is set, and every
position following a newline). -/
def searchLS {α : Type} (f : List Char → Option α) : List Char → Bool → Option α
  | [], a => if a then f [] else none
  | c :: rest, a =>
    if a then
      match f (c :: rest) with
      | some r => some r
      | none => searchLS f rest (c == '\n')
    else searchLS f rest (c == '\n')

/-- Greedy backtracking over `\s*` (zero or more whitespace chars): try
the continuation after `k` whitespace chars for `k` from the maximal
run length down to 0, first success wins. -/
def tryBack0 (body : List Char → Option (List Char)) (l : List Char) :
    Nat → Option (List Char)
  | 0 => body l
  | k + 1 =>
    match body (l.drop (k + 1)) with
    | some r => some r
    | none => tryBack0 body l k

/-- Greedy backtracking over `\s+` (one or more whitespace chars):
like `tryBack0` but `k` stops at 1. -/
def tryBack1 (body : List Char → Option (List Char)) (l : List Char) :
    Nat → Option (List Char)
  | 0 => none
  | k + 1 =>
    match body (l.drop (k + 1)) with
    | some r => some r
    | none => tryBack1 body l k

/-- The tail `\s*-\s*Product Specification` of the first title pattern:
whitespace, a dash, whitespace, then the literal (all greedy pieces are
forced, since a shorter `\s*` would leave a whitespace char where `-`
or `P` is required). -/
def p1Tail (l : List Char) : Bool :=
  match l.dropWhile pyIsSpace with
  | '-' :: r => "Product Specification".data.isPrefixOf (r.dropWhile pyIsSpace)
  | _ => false

/-- The lazy group `(.+?)` of the first title pattern followed by its
tail: the shortest non-empty newline-free capture after which `p1Tail`
matches. -/
def p1Body : List Char → Option (List Char)
  | [] => none
  | c :: rest =>
    if c == '\n' then none
    else if p1Tail rest then some [c]
    else
      match p1Body rest with
      | some g => some (c :: g)
      | none => none

/-- `#\s+(.+?)\s*-\s*Product Specification` after the `#`: greedy `\s+`
then the lazy body. -/
def p1After (l : List Char) : Option (List Char) :=
  tryBack1 p1Body l (l.takeWhile pyIsSpace).length

/-- `re.search(r'^#\s+(.+?)\s*-\s*Product Specification', _, re.MULTILINE)`:
the captured group of the leftmost line-start match. -/
def searchP1 (l : List Char) : Option (List Char) :=
  searchLS (fun t =>
    match t with
    | '#' :: rest => p1After rest
    | _ => none) l true

/-- The lazy group `(.+?)(?:\n|$)`: the shortest non-empty capture of
newline-free chars ending at a newline or at the end — i.e. the run up
to the next newline, which must be non-empty. -/
def p2Body (l : List Char) : Option (List Char) :=
  match l.takeWhile (fun c => !(c == '\n')) with
  | [] => none
  | c :: r => some (c :: r)

/-- `\*\*Product Name:\*\*\s*(.+?)(?:\n|$)` after the literal label:
greedy `\s*` then the lazy body. -/
def p2After (l : List Char) : Option (List Char) :=
  tryBack0 p2Body l (l.takeWhile pyIsSpace).length

/-- `re.search(r'\*\*Product Name:\*\*\s*(.+?)(?:\n|$)', _)`: the
captured group of the leftmost match. -/
def searchP2 (l : List Char) : Option (List Char) :=
  searchAny (fun t =>
    if "**Product Name:**".data.isPrefixOf t then
      p2After (t.drop "**Product Name:**".data.length)
    else none) l

/-- `#\s+(.+?)(?:\n|$)` after the `#`: greedy `\s+` then the lazy
body. -/
def p3After (l : List Char) : Option (List Char) :=
  tryBack1 p2Body l (l.takeWhile pyIsSpace).length

/-- `re.search(r'^#\s+(.+?)(?:\n|$)', _, re.MULTILINE)`: the captured
group of the leftmost line-start match. -/
def searchP3 (l : List Char) : Option (List Char) :=
  searchLS (fun t =>
    match t with
    | '#' :: rest => p3After rest
    | _ => none) l true

/-- `re.sub(r'\s*-\s*Product Specification.*$', '', _)`, match test at
one position: whitespace, a dash, whitespace, the literal, then `.*$`.
Returns the unmatched residue at the end of the string (`$` may stop
just before a final newline) when the pattern matches here. -/
def sub3MatchRes (l : List Char) : Option (List Char) :=
  match l.dropWhile pyIsSpace with
  | '-' :: r =>
    let r2 := r.dropWhile pyIsSpace
    if "Product Specification".data.isPrefixOf r2 then
      match (r2.drop "Product Specification".data.length).dropWhile
          (fun c => !(c == '\n')) with
      | [] => some []
      | ['\n'] => some ['\n']
      | _ => none
    else none
  | _ => none

/-- `re.sub(r'\s*-\s*Product Specification.*$', '', _)`: delete from
the leftmost match to the end of the string (keeping a final newline
the match stopped before). -/
def sub3 : List Char → List Char
  | [] => []
  | c :: rest =>
    match sub3MatchRes (c :: rest) with
    | some res => res
    | none => c :: sub3 rest

/-- `\*\*Product URL:\*\*\s*(https?://[^\s\n]+)`, the capture after the
whitespace: `https?` (greedy optional `s`), `://` and a maximal
non-empty run of non-whitespace chars. -/
def urlCap (l : List Char) : Option (List Char) :=
  if "https://".data.isPrefixOf l then
    match (l.drop 8).takeWhile (fun c => !pyIsSpace c) with
    | [] => none
    | c :: r => some ("https://".data ++ (c :: r))
  else if "http://".data.isPrefixOf l then
    match (l.drop 7).takeWhile (fun c => !pyIsSpace c) with
    | [] => none
    | c :: r => some ("http://".data ++ (c :: r))
  else none

/-- The URL pattern after the literal label: greedy `\s*` then the
capture. -/
def urlAfter (l : List Char) : Option (List Char) :=
  tryBack0 urlCap l (l.takeWhile pyIsSpace).length

/-- `re.search(r'\*\*Product URL:\*\*\s*(https?://[^\s\n]+)', _)`: the
captured group of the leftmost match. -/
def searchUrl (l : List Char) : Option (List Char) :=
  searchAny (fun t =>
    if "**Product URL:**".data.isPrefixOf t then
      urlAfter (t.drop "**Product URL:**".data.length)
    else none) l

/-- Existence test for `#\s+.+?(?:Product Specification|Specification)`
(case-insensitive) at and after the lazy group: scan newline-free chars
looking for the literal `Specification` (a match through the first
alternative `Product Specification` also contains this one). -/
def specScan : List Char → Bool
  | [] => false
  | c :: rest =>
    caselessStarts "specification".data (c :: rest)
      || (!(c == '\n') && specScan rest)

/-- `.+?(?:Product Specification|Specification)`: at least one
newline-free char, then `specScan`. -/
def specAfterWs : List Char → Bool
  | [] => false
  | c :: rest => !(c == '\n') && specScan rest

/-- After at least one whitespace char: either start the `.+?` here or
absorb more whitespace. -/
def specHeadRest : List Char → Bool
  | [] => false
  | c :: rest => specAfterWs (c :: rest) || (pyIsSpace c && specHeadRest rest)

/-- `\s+.+?(?:Product Specification|Specification)` (case-insensitive):
one leading whitespace char then `specHeadRest`. -/
def specHead : List Char → Bool
  | [] => false
  | c :: rest => pyIsSpace c && specHeadRest rest

/-- Match test for
`^#\s+.+?(?:Product Specification|Specification)` at one line start. -/
def specLineMatch (t : List Char) : Bool :=
  match t with
  | c :: rest => c == '#' && specHead rest
  | [] => false

/-- Match test for `^#\s+` at one line start. -/
def matchH1At (t : List Char) : Bool :=
  match t with
  | c :: d :: _ => c == '#' && pyIsSpace d
  | _ => false

/-- `clean_spec_content`: drop everything before the first line-start
heading containing `Specification` (case-insensitive); else before the
first `#`-and-whitespace line start; else return the content
unchanged. -/
def clean_spec_content (s : String) : String :=
  match searchLS (fun t => if specLineMatch t then some t else none) s.data true with
  | some t => String.mk t
  | none =>
    match searchLS (fun t => if matchH1At t then some t else none) s.data true with
    | some t => String.mk t
    | none => s

/-- The sentinel initial value of `product_name`. -/
def unknownTitle : List Char := "Unknown Product".data

/-- The `product_name` computation of `extract_product_info`: pattern 1
(`# Name - Product Specification`), then — while the name still equals
the sentinel — pattern 2 (`**Product Name:** value`), then pattern 3
(first H1, with any ` - Product Specification...` suffix removed). -/
def titleOf (l : List Char) : List Char :=
  let n1 := match searchP1 l with
    | some g => pyStrip g
    | none => unknownTitle
  let n2 := if n1 = unknownTitle then
      match searchP2 l with
      | some g => pyStrip g
      | none => n1
    else n1
  if n2 = unknownTitle then
    match searchP3 l with
    | some g => sub3 (pyStrip g)
    | none => n2
  else n2

/-- The `product_url` computation of `extract_product_info`. -/
def urlOf (l : List Char) : List Char :=
  match searchUrl l with
  | some g => pyStrip g
  | none => []

/-- `extract_product_info`: product name and product URL. -/
def extract_product_info (s : String) : String × String :=
  (String.mk (titleOf s.data), String.mk (urlOf s.data))

/-- The first title pattern failed, or captured the sentinel itself. -/
def p1Sentinel (l : List Char) : Prop :=
  searchP1 l = none ∨ ∃ g, searchP1 l = some g ∧ pyStrip g = unknownTitle

/-- The second title pattern failed, or captured the sentinel itself. -/
def p2Sentinel (l : List Char) : Prop :=
  searchP2 l = none ∨ ∃ g, searchP2 l = some g ∧ pyStrip g = unknownTitle

/-- The scenario input of the spec's extraction test. -/
def acmeInput : String :=
  "Some preamble...\n# Acme - Product Specification\n**Product URL:** https://acme.example\nBody text"

/-- `acmeInput` with the preamble line removed. -/
def acmeCleaned : String :=
  "# Acme - Product Specification\n**Product URL:** https://acme.example\nBody text"

/-! ### Theorems -/

theorem delaysFrom_length : ∀ (a k : Nat), (delaysFrom a k).length = k := by
  intro a k
  induction k generalizing a with
  | zero => rfl
  | succ k ih => simp [delaysFrom, ih]

theorem retryAux_skip {α : Type} (op : Nat → CallOutcome α) :
    ∀ (k a : Nat) (w : List Nat), a + k ≤ MAX_RETRIES - 1 →
    (∀ i, i < k → op (a + i) = .rateLimited) →
    retryAux op a (MAX_RETRIES - a) w
      = retryAux op (a + k) (MAX_RETRIES - (a + k)) (w ++ delaysFrom a k) := by
  intro k
  induction k with
  | zero => intro a w _ _; simp [delaysFrom]
  | succ k ih =>
    intro a w hle hrl
    have hM : MAX_RETRIES = 5 := rfl
    have ha : ¬ a = MAX_RETRIES - 1 := by omega
    have h0 : op a = .rateLimited := by
      have := hrl 0 (Nat.succ_pos k); simpa using this
    have hfe : MAX_RETRIES - a = (MAX_RETRIES - (a + 1)) + 1 := by omega
    have hstep : retryAux op a (MAX_RETRIES - a) w
        = retryAux op (a + 1) (MAX_RETRIES - (a + 1)) (w ++ [retryDelay a]) := by
      rw [hfe]
      simp [retryAux, h0, ha]
    rw [hstep]
    have hshift : ∀ i, i < k → op (a + 1 + i) = .rateLimited := by
      intro i hi
      have := hrl (i + 1) (by omega)
      have hx : a + (i + 1) = a + 1 + i := by omega
      rw [hx] at this
      exact this
    have := ih (a + 1) (w ++ [retryDelay a]) (by omega) hshift
    rw [this]
    have hx : a + 1 + k = a + (k + 1) := by omega
    rw [hx]
    simp [delaysFrom]

/-- Claim C1: for the retry wrapper `call_claude_with_retry`, an
operation that is rate-limited exactly `k` times and then succeeds, with
`k < MAX_RETRIES = 5`, returns the success after exactly `k` backoff
waits having performed `k+1 ≤ 5` calls; an operation rate-limited on
every attempt makes the wrapper re-raise the rate-limit error after
exactly `MAX_RETRIES - 1 = 4` waits and exactly `MAX_RETRIES = 5`
calls. -/
theorem claim_C1 {α : Type} (op : Nat → CallOutcome α) (k : Nat) (m : α) :
    ((k < MAX_RETRIES → (∀ i, i < k → op i = .rateLimited) → op k = .ok m →
      call_claude_with_retry op = .success m (delaysFrom 0 k) (k + 1)
        ∧ (delaysFrom 0 k).length = k ∧ k + 1 ≤ MAX_RETRIES))
    ∧ ((∀ i, i < MAX_RETRIES → op i = .rateLimited) →
      call_claude_with_retry op
          = .raisedRateLimit (delaysFrom 0 (MAX_RETRIES - 1)) MAX_RETRIES
        ∧ (delaysFrom 0 (MAX_RETRIES - 1)).length = MAX_RETRIES - 1) := by
  have hM : MAX_RETRIES = 5 := rfl
  constructor
  · intro hk hrl hok
    have hskip := retryAux_skip op k 0 [] (by omega) (by
      intro i hi; simpa using hrl i hi)
    have hcall : call_claude_with_retry op
        = retryAux op k (MAX_RETRIES - k) (delaysFrom 0 k) := by
      have h0 : MAX_RETRIES - 0 = MAX_RETRIES := rfl
      simpa [call_claude_with_retry, h0] using hskip
    have hfe : MAX_RETRIES - k = (MAX_RETRIES - (k + 1)) + 1 := by omega
    rw [hcall, hfe]
    refine ⟨?_, delaysFrom_length 0 k, by omega⟩
    simp [retryAux, hok]
  · intro hrl
    have hskip := retryAux_skip op 4 0 [] (by omega) (by
      intro i hi; simpa using hrl i (by omega))
    have hcall : call_claude_with_retry op
        = retryAux op 4 1 (delaysFrom 0 4) := by
      simpa [call_claude_with_retry] using hskip
    have h4 : op 4 = .rateLimited := hrl 4 (by omega)
    rw [hcall]
    refine ⟨?_, delaysFrom_length 0 4⟩
    simp [retryAux, h4, hM]

theorem claim_C1_witness :
    call_claude_with_retry opTwoRL = .success 37 (delaysFrom 0 2) 3
      ∧ call_claude_with_retry opAllRL
          = .raisedRateLimit (delaysFrom 0 4) 5 := by
  constructor
  · exact ((claim_C1 opTwoRL 2 37).1 (by decide)
      (fun i hi => by simp [opTwoRL, hi]) (by simp [opTwoRL])).1
  · exact ((claim_C1 opAllRL 0 0).2 (fun i _ => rfl)).1

/-- Claim C3: the backoff policy is deterministic (a pure function of
the attempt index), satisfies `delay 0 = base` with `base =
INITIAL_RETRY_DELAY = 60` and `delay (a+1) = 2 * delay a`, hence
`delay a = base * 2^a`, and is monotonically non-decreasing. -/
theorem claim_C3 (a b : Nat) (h : a ≤ b) :
    retryDelay 0 = INITIAL_RETRY_DELAY
      ∧ INITIAL_RETRY_DELAY = 60
      ∧ retryDelay a = INITIAL_RETRY_DELAY * 2 ^ a
      ∧ retryDelay (a + 1) = 2 * retryDelay a
      ∧ retryDelay a ≤ retryDelay b := by
  refine ⟨by simp [retryDelay], rfl, rfl, ?_, ?_⟩
  · simp [retryDelay, pow_succ]; ring
  · exact Nat.mul_le_mul_left _ (Nat.pow_le_pow_right (by omega) h)

theorem claim_C3_witness :
    retryDelay 0 = INITIAL_RETRY_DELAY
      ∧ INITIAL_RETRY_DELAY = 60
      ∧ retryDelay 2 = INITIAL_RETRY_DELAY * 2 ^ 2
      ∧ retryDelay 3 = 2 * retryDelay 2
      ∧ retryDelay 2 ≤ retryDelay 5 :=
  claim_C3 2 5 (by decide)

/-- Claim C4: only rate-limit failures are retried — if the first
invocation fails with a non-rate-limit error, `call_claude_with_retry`
propagates that error immediately after exactly one call, with no
backoff waits. -/
theorem claim_C4 {α : Type} (op : Nat → CallOutcome α) (e : String)
    (h : op 0 = .otherErr e) :
    call_claude_with_retry op = .raisedError e [] 1 := by
  have hM : MAX_RETRIES = 5 := rfl
  rw [call_claude_with_retry, hM]
  have h5 : (5 : Nat) = 4 + 1 := rfl
  rw [h5]
  simp [retryAux, h]

theorem claim_C4_witness :
    call_claude_with_retry opBoom = .raisedError "boom" [] 1 :=
  claim_C4 opBoom "boom" rfl

theorem driveLoop_script (fin : PHResponse) (hfin : fin.stop_reason ≠ "tool_use") :
    ∀ (pre : List PHResponse) (msgs : List Turn),
    (∀ r ∈ pre, r.stop_reason = "tool_use") →
    ∃ m, driveLoop (pre ++ [fin]) msgs = some (m, fin, pre.length + 1) := by
  intro pre
  induction pre with
  | nil =>
    intro msgs _
    exact ⟨msgs, by simp [driveLoop, hfin]⟩
  | cons r rest ih =>
    intro msgs hall
    have hr : r.stop_reason = "tool_use" := hall r (by simp)
    obtain ⟨m, hm⟩ := ih
      (msgs ++ [⟨"assistant", .blocks r.content⟩,
                ⟨"user", .results (toolResultsOf r.content)⟩])
      (fun x hx => hall x (by simp [hx]))
    refine ⟨m, ?_⟩
    simp [driveLoop, hr, hm]

/-- Claim C2: for a provider script of `N` tool-use responses followed
by one response with a non-tool-use stop reason, `run_analysis` performs
exactly `N + 1` exchanges and its raw candidate document is the
concatenation, in order, of the text blocks of the final response. -/
theorem claim_C2 (prompt : String) (pre : List PHResponse) (fin : PHResponse)
    (hall : ∀ r ∈ pre, r.stop_reason = "tool_use")
    (hfin : fin.stop_reason ≠ "tool_use") :
    run_analysis_raw prompt (pre ++ [fin])
      = some ⟨joinTexts fin.content, pre.length + 1⟩ := by
  obtain ⟨m, hm⟩ := driveLoop_script fin hfin pre [⟨"user", .str prompt⟩] hall
  simp [run_analysis_raw, hm]

theorem claim_C2_witness :
    run_analysis_raw "prompt"
        [⟨"tool_use", [.toolUse "id1" "q1"]⟩,
         ⟨"end_turn", [.text "Hello ", .otherBlock, .text "world"]⟩]
      = some ⟨joinTexts [.text "Hello ", .otherBlock, .text "world"], 2⟩ := by
  exact claim_C2 "prompt" [⟨"tool_use", [.toolUse "id1" "q1"]⟩]
    ⟨"end_turn", [.text "Hello ", .otherBlock, .text "world"]⟩
    (by intro r hr; simp at hr; simp [hr]) (by decide)

/-- Claim C5: in every tool round the driver appends a requester
(`"user"`) turn containing exactly one synthesized tool-result segment
per tool-invocation segment of the most recent responder turn, keyed by
that invocation's id, with the fixed content `"Search completed"` (the
driver does not execute the search itself). -/
theorem claim_C5 (r : PHResponse) (rest : List PHResponse) (msgs : List Turn)
    (h : r.stop_reason = "tool_use") :
    ((toolResultsOf r.content).map (fun t => t.tool_use_id)
        = r.content.filterMap blockToolId)
    ∧ (∀ t ∈ toolResultsOf r.content,
        t.type = "tool_result" ∧ t.content = "Search completed")
    ∧ driveLoop (r :: rest) msgs
      = match driveLoop rest
            (msgs ++ [⟨"assistant", .blocks r.content⟩,
                      ⟨"user", .results (toolResultsOf r.content)⟩]) with
        | some (m, fin, n) => some (m, fin, n + 1)
        | none => none := by
  refine ⟨?_, ?_, by simp [driveLoop, h]⟩
  · induction r.content with
    | nil => rfl
    | cons b bs ih =>
      cases b <;> simp [toolResultsOf, blockToolId] <;>
        simpa [toolResultsOf, blockToolId] using ih
  · intro t ht
    rw [toolResultsOf, List.mem_filterMap] at ht
    obtain ⟨b, _, hb⟩ := ht
    cases b with
    | toolUse id q =>
      obtain rfl : (⟨"tool_result", id, "Search completed"⟩ : ToolResultMsg) = t := by
        simpa using hb
      exact ⟨rfl, rfl⟩
    | text s => simp at hb
    | otherBlock => simp at hb

theorem claim_C5_witness :
    ((toolResultsOf [.toolUse "a" "q", .text "t", .toolUse "b" "p"]).map
        (fun t => t.tool_use_id)
      = ([Block.toolUse "a" "q", .text "t", .toolUse "b" "p"].filterMap blockToolId))
    ∧ (∀ t ∈ toolResultsOf [.toolUse "a" "q", .text "t", .toolUse "b" "p"],
        t.type = "tool_result" ∧ t.content = "Search completed")
    ∧ driveLoop [⟨"tool_use", [.toolUse "a" "q", .text "t", .toolUse "b" "p"]⟩] []
      = match driveLoop []
            ([] ++ [⟨"assistant", .blocks [.toolUse "a" "q", .text "t", .toolUse "b" "p"]⟩,
                    ⟨"user", .results (toolResultsOf [.toolUse "a" "q", .text "t", .toolUse "b" "p"])⟩]) with
        | some (m, fin, n) => some (m, fin, n + 1)
        | none => none :=
  claim_C5 ⟨"tool_use", [.toolUse "a" "q", .text "t", .toolUse "b" "p"]⟩ [] [] rfl

/-- Claim C9: if the analysis or the publish step raises, `main` invokes
the notification collaborator exactly once, with a failure payload whose
error text embeds the error message truncated to at most 500
characters, and re-signals the original exception; the notify step is
always invoked exactly once, and a failure of the notification itself
(`postOk = false`) never changes the process outcome. -/
theorem claim_C9 (analysis : Except String (String × String × String))
    (upload : Except String String) (postOk : Bool) (e : String) :
    (analysis = .error e →
      main_model analysis upload postOk
        = (.error e, [⟨false, "", "", "", failureErrorText e, postOk⟩]))
    ∧ (∀ v, analysis = .ok v → upload = .error e →
      main_model analysis upload postOk
        = (.error e, [⟨false, "", "", "", failureErrorText e, postOk⟩]))
    ∧ (main_model analysis upload true).1 = (main_model analysis upload false).1
    ∧ (main_model analysis upload postOk).2.length = 1
    ∧ (e.data.take 500).length ≤ 500 := by
  refine ⟨?_, ?_, ?_, ?_, ?_⟩
  · rintro rfl
    simp [main_model, send_slack_notification]
  · rintro ⟨n, s, u⟩ rfl rfl
    simp [main_model, send_slack_notification]
  · cases analysis with
    | error e2 => rfl
    | ok v =>
      obtain ⟨n, s, u⟩ := v
      cases upload with
      | error e2 => rfl
      | ok d => rfl
  · cases analysis with
    | error e2 => rfl
    | ok v =>
      obtain ⟨n, s, u⟩ := v
      cases upload with
      | error e2 => rfl
      | ok d => rfl
  · exact List.length_take_le 500 e.data

theorem claim_C9_witness :
    main_model (.ok ("Acme", "spec", "https://acme.example"))
        (.error "drive down") true
      = (.error "drive down",
         [⟨false, "", "", "", failureErrorText "drive down", true⟩]) :=
  (claim_C9 (.ok ("Acme", "spec", "https://acme.example"))
      (.error "drive down") true "drive down").2.1
    ("Acme", "spec", "https://acme.example") rfl rfl

theorem searchLS_some_suffix {p : List Char → Bool} :
    ∀ (l : List Char) (a : Bool) (r : List Char),
    searchLS (fun t => if p t then some t else none) l a = some r → r <:+ l := by
  intro l
  induction l with
  | nil =>
    intro a r h
    cases a with
    | false => simp [searchLS] at h
    | true =>
      simp only [searchLS, if_true] at h
      by_cases hp : p []
      · simp [hp] at h; simp [← h]
      · simp [hp] at h
  | cons c rest ih =>
    intro a r h
    cases a with
    | false =>
      simp only [searchLS, if_false, Bool.false_eq_true] at h
      exact (ih _ r h).trans (List.suffix_cons c rest)
    | true =>
      simp only [searchLS, if_true] at h
      by_cases hp : p (c :: rest)
      · simp [hp] at h; simp [← h]
      · simp [hp] at h
        exact (ih _ r h).trans (List.suffix_cons c rest)

theorem searchLS_none {p : List Char → Bool} :
    ∀ (l : List Char), (∀ t ∈ l.tails, p t = false) →
    ∀ a, searchLS (fun t => if p t then some t else none) l a = none := by
  intro l
  induction l with
  | nil =>
    intro hall a
    have h0 : p [] = false := hall [] (by simp)
    cases a <;> simp [searchLS, h0]
  | cons c rest ih =>
    intro hall a
    have h0 : p (c :: rest) = false := hall _ (by simp [List.tails_cons])
    have ih' := ih (fun t ht => hall t (by simp [List.tails_cons, ht])) (c == '\n')
    cases a <;> simp [searchLS, h0, ih']

theorem mk_data (s : String) : String.mk s.data = s := rfl

theorem specLineMatch_imp (t : List Char) (h : specLineMatch t = true) :
    matchH1At t = true := by
  cases t with
  | nil => simp [specLineMatch] at h
  | cons c rest =>
    simp only [specLineMatch, Bool.and_eq_true] at h
    cases rest with
    | nil => exact absurd h.2 (by simp [specHead])
    | cons d r =>
      have hd : pyIsSpace d = true := by
        have h2 := h.2
        simp only [specHead, Bool.and_eq_true] at h2
        exact h2.1
      simp [matchH1At, h.1, hd]

/-- Claim C10: `clean_spec_content` only discards a (possibly empty)
prefix — its result is always a suffix of the input — and when the
input has no line-start `#`-heading at all it is returned unchanged. -/
theorem claim_C10 (s : String) :
    (clean_spec_content s).data <:+ s.data
    ∧ ((∀ t ∈ s.data.tails, matchH1At t = false) → clean_spec_content s = s) := by
  constructor
  · unfold clean_spec_content
    cases h1 : searchLS (fun t => if specLineMatch t then some t else none) s.data true with
    | some t => simpa using searchLS_some_suffix s.data true t h1
    | none =>
      cases h2 : searchLS (fun t => if matchH1At t then some t else none) s.data true with
      | some t => simpa using searchLS_some_suffix s.data true t h2
      | none => simp
  · intro hall
    have h2 := searchLS_none s.data hall true
    have hall1 : ∀ t ∈ s.data.tails, specLineMatch t = false := by
      intro t ht
      cases hsm : specLineMatch t with
      | false => rfl
      | true => rw [← hall t ht]; exact (specLineMatch_imp t hsm).symm
    have h1 := searchLS_none s.data hall1 true
    unfold clean_spec_content
    rw [h1, h2]

theorem claim_C10_witness :
    (∀ t ∈ ("just prose, no structure" : String).data.tails, matchH1At t = false)
      ∧ clean_spec_content "just prose, no structure" = "just prose, no structure" :=
  ⟨by decide, (claim_C10 "just prose, no structure").2 (by decide)⟩

/-- Claim C6: the extraction functions are total over all string
inputs and degrade every pattern failure to a default: when none of the
three title patterns match the title is the sentinel, when the URL
pattern does not match the URL is empty, and on the empty string both
functions return their defaults without error. -/
theorem claim_C6 (s : String) :
    (searchP1 s.data = none → searchP2 s.data = none → searchP3 s.data = none →
      (extract_product_info s).1 = "Unknown Product")
    ∧ (searchUrl s.data = none → (extract_product_info s).2 = "")
    ∧ extract_product_info "" = ("Unknown Product", "")
    ∧ clean_spec_content "" = "" := by
  refine ⟨?_, ?_, by decide, by decide⟩
  · intro h1 h2 h3
    simp [extract_product_info, titleOf, h1, h2, h3, unknownTitle, mk_data]
  · intro h
    simp [extract_product_info, urlOf, h]

theorem claim_C6_witness :
    (extract_product_info "just prose, no structure").1 = "Unknown Product"
      ∧ (extract_product_info "just prose, no structure").2 = "" :=
  ⟨(claim_C6 "just prose, no structure").1 (by decide) (by decide) (by decide),
   (claim_C6 "just prose, no structure").2.1 (by decide)⟩

/-- Claim C7 (counterexample): on
`"# Unknown Product - Product Specification\n**Product Name:** Foo"`
the first title pattern succeeds, capturing `Unknown Product`, yet the
extracted title is `"Foo"` from the second pattern — so the first
successful pattern does not always win. -/
theorem claim_C7_counterexample :
    searchP1 ("# Unknown Product - Product Specification\n**Product Name:** Foo" : String).data
        = some "Unknown Product".data
    ∧ (extract_product_info
        "# Unknown Product - Product Specification\n**Product Name:** Foo").1
      = "Foo" := by
  constructor
  · decide
  · decide

/-- Claim C7 (amended): title recovery tries pattern (a)
`# <Name> - Product Specification`, then (b) `**Product Name:** value`,
then (c) the first H1 heading with any ` - Product Specification...`
suffix removed — but a pattern's value is kept only if it differs from
the sentinel `Unknown Product`: a later pattern is still consulted
whenever the title so far equals the sentinel (in particular when an
earlier pattern captured exactly `Unknown Product`), and if no pattern
yields a non-sentinel value the title is `Unknown Product`. -/
theorem claim_C7_amended (s : String) :
    (∀ g, searchP1 s.data = some g → pyStrip g ≠ unknownTitle →
      (extract_product_info s).1 = String.mk (pyStrip g))
    ∧ (∀ g, p1Sentinel s.data → searchP2 s.data = some g →
        pyStrip g ≠ unknownTitle →
      (extract_product_info s).1 = String.mk (pyStrip g))
    ∧ (∀ g, p1Sentinel s.data → p2Sentinel s.data → searchP3 s.data = some g →
      (extract_product_info s).1 = String.mk (sub3 (pyStrip g)))
    ∧ (p1Sentinel s.data → p2Sentinel s.data → searchP3 s.data = none →
      (extract_product_info s).1 = "Unknown Product") := by
  refine ⟨?_, ?_, ?_, ?_⟩
  · intro g hg hne
    simp [extract_product_info, titleOf, hg, hne]
  · intro g hp1 hg hne
    rcases hp1 with h1 | ⟨g1, hg1, hs1⟩
    · simp [extract_product_info, titleOf, h1, hg, hne]
    · simp [extract_product_info, titleOf, hg1, hs1, hg, hne]
  · intro g hp1 hp2 hg
    rcases hp1 with h1 | ⟨g1, hg1, hs1⟩
    · rcases hp2 with h2 | ⟨g2, hg2, hs2⟩
      · simp [extract_product_info, titleOf, h1, h2, hg]
      · simp [extract_product_info, titleOf, h1, hg2, hs2, hg]
    · rcases hp2 with h2 | ⟨g2, hg2, hs2⟩
      · simp [extract_product_info, titleOf, hg1, hs1, h2, hg]
      · simp [extract_product_info, titleOf, hg1, hs1, hg2, hs2, hg]
  · intro hp1 hp2 h3
    rcases hp1 with h1 | ⟨g1, hg1, hs1⟩
    · rcases hp2 with h2 | ⟨g2, hg2, hs2⟩
      · simp [extract_product_info, titleOf, h1, h2, h3, unknownTitle, mk_data]
      · simp [extract_product_info, titleOf, h1, hg2, hs2, h3, unknownTitle, mk_data]
    · rcases hp2 with h2 | ⟨g2, hg2, hs2⟩
      · simp [extract_product_info, titleOf, hg1, hs1, h2, h3, unknownTitle, mk_data]
      · simp [extract_product_info, titleOf, hg1, hs1, hg2, hs2, h3, unknownTitle, mk_data]

theorem claim_C7_witness :
    (extract_product_info "# Real Widget - Product Specification").1
      = String.mk (pyStrip "Real Widget".data) :=
  (claim_C7_amended "# Real Widget - Product Specification").1
    "Real Widget".data (by decide) (by decide)

/-- Claim C8: on the spec's scenario input, cleaning drops the preamble
so the body starts at the `# Acme - Product Specification` line, and
extraction yields title `Acme` and canonical URL
`https://acme.example`; in general the canonical URL is the captured
group of the leftmost `**Product URL:**`-labeled http(s) URL in the
text, defaulting to the empty string when the pattern never matches. -/
theorem claim_C8 (s : String) :
    clean_spec_content acmeInput = acmeCleaned
    ∧ extract_product_info acmeCleaned = ("Acme", "https://acme.example")
    ∧ (extract_product_info s).2
      = (match searchUrl s.data with
         | some g => String.mk (pyStrip g)
         | none => "") := by
  refine ⟨by decide, by decide, ?_⟩
  cases h : searchUrl s.data with
  | some g => simp [extract_product_info, urlOf, h]
  | none => simp [extract_product_info, urlOf, h]

end PHIntel
